import Mathlib

/-!
Shallow embedding of `zipline/utils/preprocess.py`.

The module provides:
* `extract_argnames` / `parse_argspec_from_cython_embedsignature_line` /
  `getargspec`: signature extraction, with a fallback that parses a Cython
  `embedsignature` line from the first line of a docstring;
* `call`: an adapter turning a one-argument transform into a three-argument
  processor `(func, argname, arg) -> f(arg)` (copying name/doc via `wraps`);
* `preprocess` / `_build_preprocessed_function`: a decorator that validates a
  processor map against the function's argspec and synthesizes a wrapper with
  an identical formal parameter list that applies processors before
  delegating.  The builder interpolates `func.__name__` and the parameter
  names into the generated source text, so `compile` raises `SyntaxError`
  (propagated uncaught) when those names do not form valid Python — e.g. for
  a lambda, whose `__name__` is `<lambda>`.

Python values are modelled by a type parameter `V`; a Python function is a
record of its identity metadata, the result of native reflection
(`inspect.getargspec`, which either succeeds, fails with `TypeError`, or
fails with some other exception), and its behaviour as a map from
name-ordered keyword bindings to a result value.  Python call binding
(positionals, keywords, defaults) is modelled once, by `bindArgs`, and used
both for direct calls to the original function and for calls to the
generated wrapper, whose synthesized parameter list is lexically identical.
-/

namespace Preprocess

/-- A formal parameter as reported by `inspect.getargspec`: either a simple
string name, or (Python 2 only) a tuple-unpacking parameter. -/
inductive PyParam where
  | ident (s : String)
  | tupleParam (names : List String)
deriving DecidableEq

/-- `True` exactly for simple string parameters (`isinstance(arg, str)`). -/
def PyParam.isIdent : PyParam → Bool
  | .ident _ => true
  | .tupleParam _ => false

/-- The name of a simple parameter (dummy for tuple parameters, which are
rejected before names are used). -/
def PyParam.nameOf : PyParam → String
  | .ident s => s
  | .tupleParam _ => ""

/-- Result of `inspect.getargspec(f)`: `args, varargs, varkw, defaults`.
`varargs`/`varkw` are booleans marking presence of `*args`/`**kwargs`; `defaults`
aligns with the trailing parameters (`None` is modelled as `[]`, matching the
`if defaults is None: defaults = ()` normalization in the decorator). -/
structure ArgSpec (V : Type) where
  args : List PyParam
  varargs : Bool
  varkw : Bool
  defaults : List V
deriving DecidableEq

/-- How native reflection (`inspect.getargspec`) fails on a callable:
a `TypeError` (unsupported callable kind, triggering the docstring fallback)
or any other exception, which the code does not catch. -/
inductive ReflectErr where
  | typeError
  | otherError (msg : String)
deriving DecidableEq

/-- A Python callable: identity metadata (`__name__`, `__doc__`), the
behaviour of native reflection on it, its source-location markers
(`__code__.co_firstlineno`, and `__func__.__code__.co_firstlineno` for bound
methods), and its call behaviour as a function of the full, name-ordered
keyword binding of its parameters. -/
structure PyFunc (V : Type) where
  name : String
  doc : Option String
  reflect : Except ReflectErr (ArgSpec V)
  codeFirstlineno : Option Nat
  methodFirstlineno : Option Nat
  impl : List (String × V) → V

/-- A one-argument transform (the argument of the `call` adapter), with its
`__name__`/`__doc__` metadata. -/
structure Transform (V : Type) where
  name : String
  doc : Option String
  fn : V → V

/-- A processor: a three-argument function `(func, argname, arg)`, with its
`__name__`/`__doc__` metadata. -/
structure Processor (V : Type) where
  name : String
  doc : Option String
  run : PyFunc V → String → V → V

/-- Failures of the docstring-fallback parse (lines 40-81 and 129-140 of the
source).  Constructors carry the data interpolated into the corresponding
`SyntaxError`/`ValueError` messages. -/
inductive ParseFailure where
  /-- `SyntaxError` from `extract_argnames` when `'=' in sig`. -/
  | defaultValues (sig : String)
  /-- `SyntaxError` from `extract_argnames` when an entry has > 2 tokens. -/
  | tooManyTokens (piece : String)
  /-- `SyntaxError` from `parse_argspec_from_cython_embedsignature_line`
  when the regex does not match the line. -/
  | badLine (line : String)
  /-- `ValueError` raised when `f.__name__ + '('` is not in the line. -/
  | notASignature
  /-- `SyntaxError` raised by `exec` of the synthesized stand-in `def`. -/
  | synthSyntaxError (funcname : String) (argnames : List String)
  /-- `AttributeError` from `f.__doc__.splitlines()` when `__doc__` is None. -/
  | noDoc
  /-- `IndexError` from `splitlines()[0]` when the docstring is empty. -/
  | emptyDoc
deriving DecidableEq

/-- Message text of the errors the source itself formats (host-raised
exceptions get generic text). -/
def parseFailureMsg : ParseFailure → String
  | .defaultValues sig =>
      "Can't parse signatures containing default values: '" ++ sig ++ "'."
  | .tooManyTokens piece =>
      "Couldn't parse argument name from '" ++ piece ++ "'."
  | .badLine line =>
      "Can't parse signature line: '" ++ line ++ "'."
  | .notASignature =>
      "First line of docstring was not a signature." ++
        "You may want to set cython.embedsignature=True."
  | .synthSyntaxError _ _ => "invalid syntax"
  | .noDoc => "attribute error on __doc__"
  | .emptyDoc => "list index out of range"

/-- Result of the enhanced `getargspec` (lines 105-140): success, a
non-`TypeError` reflection failure propagated unchanged, or the `ValueError`
raised by `fail`, which reports the original `TypeError` together with the
specific parse failure. -/
inductive GetArgSpecErr where
  | propagate (msg : String)
  | extractionFailed (second : ParseFailure)
deriving DecidableEq

/-- Failure of the wrapper builder itself: `compile` of the generated source
text (line 313) raises `SyntaxError` when the text is not valid Python —
which happens exactly when `func.__name__` (interpolated as the generated
`def`'s name) or a parameter name is not a plain non-keyword identifier, or
parameter names are duplicated.  The error carries the interpolated
names. -/
inductive BuildErr where
  | compileSyntaxError (funcname : String) (argnames : List String)
deriving DecidableEq

/-- Decoration-time errors of `preprocess`.  The first five are raised by
the decorator itself (as `TypeError` in the source; the spec's
`ConfigurationError` covers `varargsNotAllowed`/`varkwNotAllowed`/
`tupleArgsNotAllowed`/`unknownArgNames`, and its `ExtractionError` is
`argspecFailed (extractionFailed _)`); `buildFailed` is a `SyntaxError`
escaping uncaught from `compile` inside `_build_preprocessed_function`. -/
inductive PreprocessErr where
  | argspecFailed (e : GetArgSpecErr)
  | varargsNotAllowed
  | varkwNotAllowed
  | tupleArgsNotAllowed
  | unknownArgNames (names : List String)
  | buildFailed (e : BuildErr)
deriving DecidableEq

/-! ### String helpers (modelling `str.split`, `str.strip`, `re.split`) -/

/-- Split a character list at every occurrence of `sep`
(Python `str.split(sep)` for a one-character separator: `"".split(',')`
gives `['']`, separators are not collapsed). -/
def splitOnChar (sep : Char) : List Char → List (List Char)
  | [] => [[]]
  | c :: rest =>
      match splitOnChar sep rest with
      | [] => if c == sep then [[], []] else [[c]]
      | h :: t => if c == sep then [] :: h :: t else (c :: h) :: t

/-- Python `piece.strip(' ')`: remove leading and trailing space characters
(spaces only, as in the source). -/
def stripSpacesL (cs : List Char) : List Char :=
  ((cs.dropWhile (fun c => c == ' ')).reverse.dropWhile (fun c => c == ' ')).reverse

/-- Python ≤3.6 `re.split(' *', piece.strip(' '))`: on a space-stripped
piece this splits at maximal nonempty runs of spaces; on the empty string it
returns `['']`. -/
def pieceTokens (piece : List Char) : List (List Char) :=
  let stripped := stripSpacesL piece
  if stripped.isEmpty then [[]]
  else (splitOnChar ' ' stripped).filter (fun t => !t.isEmpty)

/-- Python `needle in hay` for strings: `needle` occurs as a contiguous
substring of `hay`. -/
def containsSub (needle : List Char) : List Char → Bool
  | [] => needle.isEmpty
  | c :: rest => needle.isPrefixOf (c :: rest) || containsSub needle rest

/-- Python `s.splitlines()[0]`: the first line of a docstring, or failure if
the string is empty (`IndexError`). -/
def firstLine (s : String) : Option String :=
  match s.toList with
  | [] => none
  | cs => some (String.mk (cs.takeWhile (fun c => !(c == '\n') && !(c == '\r'))))

/-! ### Signature extraction -/

/-- `extract_argnames` (lines 40-62): reject signatures containing `=`,
split on commas, split each piece on runs of spaces after stripping spaces,
reject pieces with more than two tokens, and keep the last token of each
piece as the argument name. -/
def extract_argnames (sig : String) : Except ParseFailure (List String) :=
  if sig.toList.any (fun c => c == '=') then
    .error (.defaultValues sig)
  else
    (splitOnChar ',' sig.toList).mapM (fun piece =>
      let toks := pieceTokens piece
      if toks.length > 2 then .error (.tooManyTokens (String.mk piece))
      else .ok (String.mk (toks.getLastD [])))

/-- The match behaviour of `re.compile("^([\w_]+)\((.*)\)$")` on a one-line
string: the line must begin with a maximal nonempty run of word characters
(group 1), immediately followed by `(`, and end with `)`; group 2 is
everything strictly between that `(` and the final `)`. -/
def cythonSigMatch (line : String) : Option (String × String) :=
  let cs := line.toList
  let nameChars := cs.takeWhile (fun c => c.isAlphanum || c == '_')
  if nameChars.isEmpty then none
  else
    match cs.drop nameChars.length with
    | '(' :: rest =>
        match rest.reverse with
        | ')' :: revMid => some (String.mk nameChars, String.mk revMid.reverse)
        | _ => none
    | _ => none

/-- Python keywords (union of the Python 2 and Python 3 lists): using one as
a parameter name makes the synthesized `def` a syntax error. -/
def PY_KEYWORDS : List String :=
  ["False", "None", "True", "and", "as", "assert", "break", "class",
   "continue", "def", "del", "elif", "else", "except", "exec", "finally",
   "for", "from", "global", "if", "in", "is", "lambda", "nonlocal",
   "not", "or", "pass", "print", "raise", "return", "try", "while", "with",
   "yield", "import"]

/-- A non-leading Python identifier character. -/
def isPyIdentChar (c : Char) : Bool := c.isAlphanum || c == '_'

/-- Whether `s` is a plain (ASCII) Python identifier that is not a keyword,
i.e. is legal as a parameter name in the synthesized `def`. -/
def isPyIdent (s : String) : Bool :=
  match s.toList with
  | [] => false
  | c :: rest =>
      (c.isAlpha || c == '_') && rest.all isPyIdentChar &&
        !(PY_KEYWORDS.contains s)

/-- Whether a list of names has no duplicates (duplicated parameter names
make the synthesized `def` a syntax error). -/
def allDistinct : List String → Bool
  | [] => true
  | x :: xs => !(xs.contains x) && allDistinct xs

/-- Lines 73-81: synthesize `def funcname(n1, ..., nk): pass` from the parsed
names, `exec` it, and reflect the stand-in, yielding an argspec with exactly
those names and no variadics and no defaults.  We model the `exec` step on
the fragment the notation can produce: it succeeds when the joined parameter
list is well formed — every name a plain non-keyword identifier with no
duplicates, where a single empty name (from `f()`) yields an empty list and
a single trailing empty name (from a trailing comma) is dropped — and raises
`SyntaxError` otherwise. -/
def synthReflect {V : Type} (funcname : String) (argnames : List String) :
    Except ParseFailure (ArgSpec V) :=
  if !(isPyIdent funcname) then .error (.synthSyntaxError funcname argnames)
  else if argnames == [""] then .ok ⟨[], false, false, []⟩
  else
    let core := if argnames.getLastD "x" == "" then argnames.dropLast else argnames
    if !core.isEmpty && core.all isPyIdent && allDistinct core then
      .ok ⟨core.map PyParam.ident, false, false, []⟩
    else .error (.synthSyntaxError funcname argnames)

/-- `parse_argspec_from_cython_embedsignature_line` (lines 65-81): match the
signature regex, extract argument names, then synthesize and reflect a
stand-in function. -/
def parse_argspec_from_cython_embedsignature_line {V : Type} (line : String) :
    Except ParseFailure (ArgSpec V) :=
  match cythonSigMatch line with
  | none => .error (.badLine line)
  | some (funcname, cy_sig) =>
      match extract_argnames cy_sig with
      | .error e => .error e
      | .ok argnames => synthReflect funcname argnames

/-- Enhanced `getargspec` (lines 105-140): try native reflection; on a
`TypeError` (and only then) fall back to the first docstring line, requiring
`f.__name__ + '('` to occur in it, and parse it as a Cython embedsignature
line; every failure on the fallback path is wrapped by `fail` into a
`ValueError` reporting both errors.  A non-`TypeError` reflection failure
propagates unchanged. -/
def getargspec {V : Type} (f : PyFunc V) : Except GetArgSpecErr (ArgSpec V) :=
  match f.reflect with
  | .ok spec => .ok spec
  | .error (.otherError msg) => .error (.propagate msg)
  | .error .typeError =>
      match f.doc with
      | none => .error (.extractionFailed .noDoc)
      | some d =>
          match firstLine d with
          | none => .error (.extractionFailed .emptyDoc)
          | some line =>
              if containsSub (f.name ++ "(").toList line.toList then
                match parse_argspec_from_cython_embedsignature_line (V := V) line with
                | .ok spec => .ok spec
                | .error e => .error (.extractionFailed e)
              else .error (.extractionFailed .notASignature)

/-! ### Call binding and the wrapper -/

/-- The declared parameter names of an argspec (meaningful once all
parameters are known to be simple). -/
def paramNames {V : Type} (spec : ArgSpec V) : List String :=
  spec.args.map PyParam.nameOf

/-- `zip(args, no_defaults + defaults)` (lines 192-195): pair every
parameter name with its default, where the leading parameters get the
`NO_DEFAULT` sentinel, modelled as `none`. -/
def mkArgsDefaults {V : Type} (names : List String) (defaults : List V) :
    List (String × Option V) :=
  names.zip (List.replicate (names.length - defaults.length) none ++ defaults.map some)

/-- The arguments-with-defaults list of an argspec. -/
def specArgsDefaults {V : Type} (spec : ArgSpec V) : List (String × Option V) :=
  mkArgsDefaults (paramNames spec) spec.defaults

/-- Python call binding for a function whose formal parameter list is
`ad` (names with optional defaults, no variadics): bind positional
arguments in order, then keywords, then defaults; fail (`TypeError` at call
time) on too many positionals, duplicate bindings, unknown keywords, or a
missing required argument.  On success, return the complete binding in
declared parameter order. -/
def bindArgs {V : Type} :
    List (String × Option V) → List V → List (String × V) →
      Option (List (String × V))
  | [], [], kw => if kw.isEmpty then some [] else none
  | [], _ :: _, _ => none
  | (name, _) :: rest, p :: ps, kw =>
      if kw.any (fun q => q.1 == name) then none
      else (bindArgs rest ps kw).map (fun bs => (name, p) :: bs)
  | (name, dflt) :: rest, [], kw =>
      match kw.find? (fun q => q.1 == name) with
      | some q =>
          (bindArgs rest [] (kw.filter (fun q2 => !(q2.1 == name)))).map
            (fun bs => (name, q.2) :: bs)
      | none =>
          match dflt with
          | some d => (bindArgs rest [] kw).map (fun bs => (name, d) :: bs)
          | none => none

/-- A direct call of the original function `f` (whose argspec is `spec`)
with positional and keyword arguments. -/
def callOriginal {V : Type} (f : PyFunc V) (spec : ArgSpec V)
    (pos : List V) (kw : List (String × V)) : Option V :=
  (bindArgs (specArgsDefaults spec) pos kw).map f.impl

/-- The per-parameter rebind statements of the generated wrapper body
(lines 269-275 and 292-295): each parameter that has a processor is rebound
to `processor(func, 'name', value)`; parameters without a processor pass
through.  Each statement reads only its own parameter, so the declared-order
loop is a pointwise map over the binding. -/
def applyProcessors {V : Type} (f : PyFunc V)
    (processors : List (String × Processor V)) (bs : List (String × V)) :
    List (String × V) :=
  bs.map (fun b =>
    match processors.find? (fun q => q.1 == b.1) with
    | some q => (b.1, q.2.run f b.1 b.2)
    | none => b)

/-- The generated wrapper: its identity metadata, its `co_firstlineno`, its
declared parameter list (names in order, with defaults), and its call
behaviour. -/
structure Wrapper (V : Type) where
  name : String
  doc : Option String
  firstlineno : Nat
  argsDefaults : List (String × Option V)
  call : List V → List (String × V) → Option V

/-- `co_firstlineno` of the synthesized code object before any correction
(the `def` line of the generated source text). -/
def synthFirstlineno : Nat := 2

/-- Whether `compile` of the generated source text succeeds (line 313): the
text `def {func_name}({signature}): ...` is valid Python exactly when the
interpolated `func.__name__` is a plain non-keyword identifier and the
parameter names of `ad` are distinct plain non-keyword identifiers (the
mangled aliases are an `a` + hex prefix on these same names, so they add no
further constraint). -/
def compileOk {V : Type} (func : PyFunc V) (ad : List (String × Option V)) : Bool :=
  isPyIdent func.name && (ad.map Prod.fst).all isPyIdent &&
    allDistinct (ad.map Prod.fst)

/-- The function object materialized from the generated source on a
successful `compile` + `exec`: `@wraps(func)` copies `__name__` and
`__doc__`; the declared parameter list is `ad`; the body applies the
processor rebinds in declared order and then calls `func` by keyword; and
`co_firstlineno` is copied from `func.__code__`, falling back to
`func.__func__.__code__` for methods, and left as synthesized when neither
exists. -/
def mkWrapper {V : Type} (func : PyFunc V)
    (processors : List (String × Processor V))
    (ad : List (String × Option V)) : Wrapper V :=
  { name := func.name
    doc := func.doc
    firstlineno :=
      match func.codeFirstlineno with
      | some n => n
      | none =>
          match func.methodFirstlineno with
          | some n => n
          | none => synthFirstlineno
    argsDefaults := ad
    call := fun pos kw =>
      (bindArgs ad pos kw).map (fun bs => func.impl (applyProcessors func processors bs)) }

/-- `_build_preprocessed_function` (lines 255-348): synthesize source text
for a function with formal parameter list `ad` whose body is the processor
rebinds in declared order followed by a by-keyword call of `func`, then
`compile` and `exec` it and fix up `co_firstlineno`.  `compile` raises
`SyntaxError` — propagated uncaught — when the interpolated names do not
form valid Python (e.g. `func.__name__ == "<lambda>"`). -/
def _build_preprocessed_function {V : Type} (func : PyFunc V)
    (processors : List (String × Processor V))
    (ad : List (String × Option V)) : Except BuildErr (Wrapper V) :=
  if compileOk func ad then .ok (mkWrapper func processors ad)
  else .error (.compileSyntaxError func.name (ad.map Prod.fst))

/-- The keys of the processor map that name no parameter
(`viewkeys(processors) - argset`, line 218). -/
def badProcessorNames {V : Type} (processors : List (String × Processor V))
    (spec : ArgSpec V) : List String :=
  ((processors.map Prod.fst).filter (fun k => !((paramNames spec).contains k))).dedup

/-- The decorator `preprocess(**processors)` applied to `f` (lines 190-225):
extract the argspec; reject `*args`, `**kwargs`, tuple-unpacking parameters,
and processor keys that name no parameter; otherwise build the wrapper with
the function's arguments-with-defaults list. -/
def preprocess {V : Type} (processors : List (String × Processor V))
    (f : PyFunc V) : Except PreprocessErr (Wrapper V) :=
  match getargspec f with
  | .error e => .error (.argspecFailed e)
  | .ok spec =>
      if spec.varargs then .error .varargsNotAllowed
      else if spec.varkw then .error .varkwNotAllowed
      else if !(spec.args.all PyParam.isIdent) then .error .tupleArgsNotAllowed
      else if !((badProcessorNames processors spec).isEmpty) then
        .error (.unknownArgNames (badProcessorNames processors spec))
      else
        match _build_preprocessed_function f processors (specArgsDefaults spec) with
        | .ok g => .ok g
        | .error e => .error (.buildFailed e)

/-- The `call` adapter (lines 228-252): wrap a one-argument transform into a
processor that ignores `func` and `argname`; `@wraps(f)` copies the
transform's `__name__` and `__doc__` onto the processor. -/
def call {V : Type} (f : Transform V) : Processor V :=
  { name := f.name
    doc := f.doc
    run := fun _func _argname arg => f.fn arg }

/-! ### Concrete fixtures used to evaluate the development on real inputs -/

/-- A sample body: fold the bound values into a decimal-style accumulator, so
different bindings give different results. -/
def sumImpl (bs : List (String × Int)) : Int :=
  (bs.map Prod.snd).foldl (fun x y => 10 * x + y) 0

/-- The argspec of `def foo(a, b=2)`. -/
def specAB : ArgSpec Int :=
  ⟨[PyParam.ident "a", PyParam.ident "b"], false, false, [2]⟩

/-- A natively reflectable `foo(a, b=2)` with a docstring and a code object,
parametrized by its body. -/
def fooAB (impl : List (String × Int) → Int) : PyFunc Int :=
  { name := "foo"
    doc := some "foo docs"
    reflect := .ok specAB
    codeFirstlineno := some 7
    methodFirstlineno := none
    impl := impl }

/-- The transform `lambda v: v + 1`. -/
def incTransform : Transform Int :=
  { name := "inc", doc := some "add one", fn := fun v => v + 1 }

/-- The identity transform. -/
def idTransform : Transform Int :=
  { name := "identity", doc := none, fn := fun v => v }

/-- A non-reflectable callable named `foo` whose docstring's first line is
`foo(int x, y)`. -/
def cyDoc1Func : PyFunc Int :=
  { name := "foo"
    doc := some "foo(int x, y)"
    reflect := .error .typeError
    codeFirstlineno := none
    methodFirstlineno := none
    impl := sumImpl }

/-- A non-reflectable callable named `foo` whose docstring's first line is
`foo(x=1)`. -/
def cyDoc2Func : PyFunc Int :=
  { name := "foo"
    doc := some "foo(x=1)"
    reflect := .error .typeError
    codeFirstlineno := none
    methodFirstlineno := none
    impl := sumImpl }

/-- A non-reflectable callable named `foo` whose docstring's first line is
`xfoo(x)`: the regex-matched identifier `xfoo` differs from the declared
name, yet `"foo("` occurs inside the line. -/
def xfooFunc : PyFunc Int :=
  { name := "foo"
    doc := some "xfoo(x)"
    reflect := .error .typeError
    codeFirstlineno := none
    methodFirstlineno := none
    impl := sumImpl }

/-- A non-reflectable callable named `foo` whose docstring's first line is
`bar(x)`: `"foo("` does not occur in the line. -/
def barDocFunc : PyFunc Int :=
  { name := "foo"
    doc := some "bar(x)"
    reflect := .error .typeError
    codeFirstlineno := none
    methodFirstlineno := none
    impl := sumImpl }

/-- A callable on which native reflection raises a non-`TypeError`
exception, with a perfectly parseable docstring line. -/
def otherErrFunc : PyFunc Int :=
  { name := "foo"
    doc := some "foo(x)"
    reflect := .error (.otherError "boom")
    codeFirstlineno := none
    methodFirstlineno := none
    impl := sumImpl }

/-- The argspec of `def bar(x, *rest)`. -/
def vaSpec : ArgSpec Int :=
  ⟨[PyParam.ident "x"], true, false, []⟩

/-- A function declared as `def bar(x, *rest)`. -/
def varargsFunc : PyFunc Int :=
  { name := "bar"
    doc := none
    reflect := .ok vaSpec
    codeFirstlineno := none
    methodFirstlineno := none
    impl := sumImpl }

/-- A processor that leaves the value unchanged (used only as an opaque
payload of processor maps). -/
def procNoop : Processor Int :=
  { name := "noop", doc := none, run := fun _ _ v => v }

/-- `lambda x: ...`: natively reflectable, one simple parameter, no
variadics — but its `__name__` is `<lambda>`, which is not a valid Python
identifier. -/
def lambdaFunc : PyFunc Int :=
  { name := "<lambda>"
    doc := none
    reflect := .ok ⟨[PyParam.ident "x"], false, false, []⟩
    codeFirstlineno := some 1
    methodFirstlineno := none
    impl := sumImpl }

/-- The wrapper the builder produces for `foo(a, b=2)` with the empty
processor map. -/
def wrapABempty : Wrapper Int :=
  mkWrapper (fooAB sumImpl) [] (specArgsDefaults specAB)

/-! ### Helper lemmas -/

/-- The parameter names of the arguments-with-defaults list are exactly the
given names (the defaults padding never truncates the name list). -/
theorem map_fst_mkArgsDefaults {V : Type} (names : List String) (ds : List V) :
    (mkArgsDefaults names ds).map Prod.fst = names := by
  unfold mkArgsDefaults
  apply List.map_fst_zip
  simp only [List.length_append, List.length_replicate, List.length_map]
  omega

/-- With an empty processor map the rebind loop is the identity. -/
theorem applyProcessors_nil {V : Type} (f : PyFunc V) (bs : List (String × V)) :
    applyProcessors f [] bs = bs := by
  unfold applyProcessors
  simp [List.find?]

/-- A singleton processor map whose processor is the adapted identity leaves
every binding unchanged. -/
theorem applyProcessors_call_id {V : Type} (f : PyFunc V) (p tn : String)
    (td : Option String) (bs : List (String × V)) :
    applyProcessors f [(p, call ⟨tn, td, fun v => v⟩)] bs = bs := by
  unfold applyProcessors
  have h : ∀ b : String × V,
      (match List.find? (fun q => q.1 == b.1) [(p, call ⟨tn, td, fun v => v⟩)] with
        | some q => (b.1, q.2.run f b.1 b.2)
        | none => b) = b := by
    intro b
    by_cases hb : (p == b.1) = true
    · simp [List.find?, hb, call]
    · simp [List.find?, hb]
  simp only [h, List.map_id']

/-- Forward computation of the decorator on a function that passes all of
its validation checks and whose generated source compiles. -/
theorem preprocess_ok_intro {V : Type} (processors : List (String × Processor V))
    (f : PyFunc V) (spec : ArgSpec V)
    (h1 : getargspec f = .ok spec)
    (h2 : spec.varargs = false) (h3 : spec.varkw = false)
    (h4 : spec.args.all PyParam.isIdent = true)
    (h5 : badProcessorNames processors spec = [])
    (h6 : compileOk f (specArgsDefaults spec) = true) :
    preprocess processors f = .ok (mkWrapper f processors (specArgsDefaults spec)) := by
  unfold preprocess
  rw [h1]
  simp [h2, h3, h4, h5, _build_preprocessed_function, h6]

/-- Inversion of the decorator: a produced wrapper means every validation
check passed and the wrapper is the built one. -/
theorem preprocess_ok_elim {V : Type} {processors : List (String × Processor V)}
    {f : PyFunc V} {g : Wrapper V}
    (h : preprocess processors f = .ok g) :
    ∃ spec : ArgSpec V, getargspec f = .ok spec ∧
      spec.varargs = false ∧ spec.varkw = false ∧
      spec.args.all PyParam.isIdent = true ∧
      badProcessorNames processors spec = [] ∧
      compileOk f (specArgsDefaults spec) = true ∧
      g = mkWrapper f processors (specArgsDefaults spec) := by
  unfold preprocess at h
  split at h
  · exact absurd h (by simp)
  next spec heq =>
    refine ⟨spec, heq, ?_⟩
    split at h
    next => cases h
    next hva =>
    split at h
    next => cases h
    next hvk =>
    split at h
    next => cases h
    next hid =>
    split at h
    next => cases h
    next hbad =>
    split at h
    next w hw =>
      injection h with h2
      subst h2
      unfold _build_preprocessed_function at hw
      split at hw
      next hco =>
        injection hw with hw2
        refine ⟨by simpa using hva, by simpa using hvk, by simpa using hid, ?_, hco, hw2.symm⟩
        have : (badProcessorNames processors spec).isEmpty = true := by simpa using hbad
        simpa [List.isEmpty_iff] using this
      next => cases hw
    next e he => cases h

/-! ### Claims -/

/-- C9: for every single-argument transform `t`, the processor produced by
the `call` adapter, applied to any `(originalCallable, parameterName,
value)`, returns exactly `t.fn value` regardless of the first two arguments,
and the produced processor's display name and documentation equal `t`'s. -/
theorem claim_C9 {V : Type} (t : Transform V) (func : PyFunc V)
    (argname : String) (arg : V) :
    (call t).run func argname arg = t.fn arg ∧
      (call t).name = t.name ∧ (call t).doc = t.doc :=
  ⟨rfl, rfl, rfl⟩

/-- Witness for C9: the adapted `lambda v: v + 1` on a concrete triple. -/
theorem claim_C9_witness :
    (call incTransform).run (fooAB sumImpl) "a" 41 = incTransform.fn 41 ∧
      (call incTransform).name = incTransform.name ∧
      (call incTransform).doc = incTransform.doc :=
  claim_C9 incTransform (fooAB sumImpl) "a" 41

/-- C3: every wrapper the builder produces carries the original's display
name and documentation text; when the original has a code object with a
first line number the wrapper's code carries it (falling back to the
method's `__func__.__code__` marker); and when the original exposes no
source-location marker at all, the wrapper is still returned without
failing, keeping the synthesized first line number (the marker lookup's
failure path returns the wrapper instead of raising). -/
theorem claim_C3 {V : Type} (f : PyFunc V)
    (processors : List (String × Processor V)) (ad : List (String × Option V))
    (g : Wrapper V)
    (h : _build_preprocessed_function f processors ad = .ok g) :
    g.name = f.name ∧ g.doc = f.doc ∧
    (∀ n, f.codeFirstlineno = some n → g.firstlineno = n) ∧
    (f.codeFirstlineno = none → ∀ n, f.methodFirstlineno = some n →
      g.firstlineno = n) ∧
    (f.codeFirstlineno = none → f.methodFirstlineno = none →
      g.firstlineno = synthFirstlineno) := by
  unfold _build_preprocessed_function at h
  split at h
  next hco =>
    injection h with h2
    subst h2
    refine ⟨rfl, rfl, ?_, ?_, ?_⟩
    · intro n hn
      simp [mkWrapper, hn]
    · intro hc n hm
      simp [mkWrapper, hc, hm]
    · intro hc hm
      simp [mkWrapper, hc, hm]
  next => cases h

/-- Witness for C3 at the concrete function `foo(a, b=2)` with code object
at line 7 and empty processor map. -/
theorem claim_C3_witness :
    wrapABempty.name = (fooAB sumImpl).name ∧
    wrapABempty.doc = (fooAB sumImpl).doc ∧
    (∀ n, (fooAB sumImpl).codeFirstlineno = some n → wrapABempty.firstlineno = n) ∧
    ((fooAB sumImpl).codeFirstlineno = none →
      ∀ n, (fooAB sumImpl).methodFirstlineno = some n → wrapABempty.firstlineno = n) ∧
    ((fooAB sumImpl).codeFirstlineno = none → (fooAB sumImpl).methodFirstlineno = none →
      wrapABempty.firstlineno = synthFirstlineno) :=
  claim_C3 (fooAB sumImpl) [] (specArgsDefaults specAB) wrapABempty rfl

/-- C10: when native reflection fails with anything other than a
`TypeError`, that failure propagates to the caller unchanged, whatever the
docstring is — so the docstring fallback is never consulted. -/
theorem claim_C10 {V : Type} (f : PyFunc V) (msg : String)
    (h : f.reflect = .error (.otherError msg)) (d : Option String) :
    getargspec { f with doc := d } = .error (.propagate msg) := by
  have hr : ({ f with doc := d } : PyFunc V).reflect = .error (.otherError msg) := h
  unfold getargspec
  rw [hr]

/-- Witness for C10: a callable raising a non-`TypeError` on reflection
propagates `"boom"` even though its docstring line `foo(x)` would parse. -/
theorem claim_C10_witness :
    getargspec { otherErrFunc with doc := some "foo(x)" } = .error (.propagate "boom") :=
  claim_C10 otherErrFunc "boom" rfl (some "foo(x)")

/-- C4: on a non-reflectable callable named `foo` whose docstring first line
is `foo(int x, y)`, extraction succeeds with exactly the ordered parameter
names `x, y`, no defaults and no variadics; with first line `foo(x=1)`,
extraction fails, and the failure message cites the default-value
restriction. -/
theorem claim_C4 :
    getargspec cyDoc1Func =
      .ok ⟨[PyParam.ident "x", PyParam.ident "y"], false, false, ([] : List Int)⟩ ∧
    getargspec cyDoc2Func =
      .error (.extractionFailed (.defaultValues "x=1")) ∧
    containsSub "default values".toList
      (parseFailureMsg (.defaultValues "x=1")).toList = true := by
  refine ⟨rfl, rfl, by decide⟩

/-- C1 counterexample: the claim says every natively reflectable function
with no variadics and only simple parameter names is successfully decorated
by the empty processor map.  A lambda satisfies all of these hypotheses,
yet its `__name__` is `<lambda>`, so `compile` of the generated source text
`def <lambda>(x): ...` raises `SyntaxError` (line 313) and no wrapper is
ever produced. -/
theorem claim_C1_counterexample :
    lambdaFunc.reflect = .ok ⟨[PyParam.ident "x"], false, false, ([] : List Int)⟩ ∧
    (⟨[PyParam.ident "x"], false, false, ([] : List Int)⟩ : ArgSpec Int).varargs = false ∧
    (⟨[PyParam.ident "x"], false, false, ([] : List Int)⟩ : ArgSpec Int).varkw = false ∧
    [PyParam.ident "x"].all PyParam.isIdent = true ∧
    isPyIdent "<lambda>" = false ∧
    preprocess [] lambdaFunc =
      .error (.buildFailed (.compileSyntaxError "<lambda>" ["x"])) ∧
    (∀ g : Wrapper Int, preprocess [] lambdaFunc ≠ .ok g) := by
  refine ⟨rfl, rfl, rfl, by decide, by decide, rfl, ?_⟩
  intro g hg
  have hv : preprocess [] lambdaFunc =
      .error (.buildFailed (.compileSyntaxError "<lambda>" ["x"])) := rfl
  rw [hv] at hg
  cases hg

/-- C1 amended: decorating a natively reflectable function with no variadics
and only simple parameter names with an empty processor map yields a wrapper
with the identical declared parameter list (names, order, defaults), whose
result on every argument combination equals a direct call of the original
(in particular on every valid call) — provided the generated source text
compiles, i.e. the function's declared name is a plain non-keyword
identifier and its parameter names are distinct plain non-keyword
identifiers (automatic for an ordinary `def`). -/
theorem claim_C1_amended {V : Type} (f : PyFunc V) (spec : ArgSpec V)
    (h1 : f.reflect = .ok spec)
    (h2 : spec.varargs = false) (h3 : spec.varkw = false)
    (h4 : spec.args.all PyParam.isIdent = true)
    (h5 : isPyIdent f.name = true)
    (h6 : (paramNames spec).all isPyIdent = true)
    (h7 : allDistinct (paramNames spec) = true) :
    ∃ g : Wrapper V, preprocess [] f = .ok g ∧
      g.argsDefaults = specArgsDefaults spec ∧
      ∀ pos kw, g.call pos kw = callOriginal f spec pos kw := by
  have hg : getargspec f = .ok spec := by
    unfold getargspec
    rw [h1]
  have hbad : badProcessorNames ([] : List (String × Processor V)) spec = [] := rfl
  have hco : compileOk f (specArgsDefaults spec) = true := by
    unfold compileOk
    unfold specArgsDefaults
    rw [map_fst_mkArgsDefaults]
    simp [h5, h6, h7]
  refine ⟨_, preprocess_ok_intro [] f spec hg h2 h3 h4 hbad hco, rfl, ?_⟩
  intro pos kw
  unfold mkWrapper callOriginal
  simp [applyProcessors_nil]

/-- Witness for C1 (amended) at the concrete reflectable function
`foo(a, b=2)`. -/
theorem claim_C1_witness :
    ∃ g : Wrapper Int, preprocess [] (fooAB sumImpl) = .ok g ∧
      g.argsDefaults = specArgsDefaults specAB ∧
      ∀ pos kw, g.call pos kw = callOriginal (fooAB sumImpl) specAB pos kw :=
  claim_C1_amended (fooAB sumImpl) specAB rfl rfl rfl rfl (by decide) (by decide) (by decide)

/-- C6: a function whose extracted signature declares a positional-variadic
or keyword-variadic parameter fails decoration with the corresponding
configuration error — for every processor map, the empty one included — and
no wrapper is produced. -/
theorem claim_C6 {V : Type} (f : PyFunc V) (spec : ArgSpec V)
    (h1 : getargspec f = .ok spec)
    (h2 : spec.varargs = true ∨ spec.varkw = true)
    (processors : List (String × Processor V)) :
    preprocess processors f = .error .varargsNotAllowed ∨
    preprocess processors f = .error .varkwNotAllowed := by
  unfold preprocess
  rw [h1]
  by_cases hva : spec.varargs = true
  · left
    simp [hva]
  · right
    rcases h2 with h | h
    · exact absurd h hva
    · simp [hva, h]

/-- Witness for C6: `def bar(x, *rest)` fails decoration with the empty
processor map. -/
theorem claim_C6_witness :
    preprocess [] varargsFunc = .error .varargsNotAllowed ∨
    preprocess [] varargsFunc = .error .varkwNotAllowed :=
  claim_C6 varargsFunc ⟨[PyParam.ident "x"], true, false, []⟩ rfl (Or.inl rfl) []

/-- C2: for `foo(a, b=2)` wrapped with the processor map assigning `a` the
adapted transform `lambda v: v + 1`, calling the wrapper with the single
positional argument `1` equals calling `foo(2, 2)`, and calling it with
positional arguments `(1, 5)` equals calling `foo(2, 5)` — whatever the body
of `foo` is. -/
theorem claim_C2 (impl : List (String × Int) → Int) :
    ∃ g : Wrapper Int,
      preprocess [("a", call incTransform)] (fooAB impl) = .ok g ∧
      g.call [1] [] = callOriginal (fooAB impl) specAB [2, 2] [] ∧
      g.call [1, 5] [] = callOriginal (fooAB impl) specAB [2, 5] [] := by
  refine ⟨_, rfl, ?_, ?_⟩ <;> rfl

/-- Witness for C2 at a concrete body for `foo`. -/
theorem claim_C2_witness :
    ∃ g : Wrapper Int,
      preprocess [("a", call incTransform)] (fooAB sumImpl) = .ok g ∧
      g.call [1] [] = callOriginal (fooAB sumImpl) specAB [2, 2] [] ∧
      g.call [1, 5] [] = callOriginal (fooAB sumImpl) specAB [2, 5] [] :=
  claim_C2 sumImpl

/-- C5 counterexample: the claim says extraction fails whenever the
regex-matched identifier differs from the callable's declared name.  For the
non-reflectable callable named `foo` whose first docstring line is
`xfoo(x)`, the matched identifier is `xfoo ≠ foo`, yet extraction succeeds
(with parameter `x`), because the code only checks that `"foo("` occurs
somewhere in the line — and it occurs inside `xfoo(`. -/
theorem claim_C5_counterexample :
    cythonSigMatch "xfoo(x)" = some ("xfoo", "x") ∧
    xfooFunc.name = "foo" ∧ "xfoo" ≠ "foo" ∧
    xfooFunc.reflect = .error .typeError ∧
    getargspec xfooFunc =
      .ok ⟨[PyParam.ident "x"], false, false, ([] : List Int)⟩ :=
  ⟨rfl, rfl, by decide, rfl, rfl⟩

/-- C5 amended: when native reflection fails with a `TypeError` and the
docstring fallback runs, extraction fails (with the error reporting the
fallback failure) whenever the callable's declared name immediately followed
by `(` does not occur as a substring of the first docstring line.  (The code
checks substring containment of `name + "("`, not equality of the matched
identifier with the declared name; when `name + "("` occurs as a substring,
parsing proceeds even if the matched identifier differs.) -/
theorem claim_C5_amended {V : Type} (f : PyFunc V) (d line : String)
    (h1 : f.reflect = .error .typeError)
    (h2 : f.doc = some d)
    (h3 : firstLine d = some line)
    (h4 : containsSub (f.name ++ "(").toList line.toList = false) :
    getargspec f = .error (.extractionFailed .notASignature) := by
  have h4n : containsSub (f.name.data ++ ['(']) line.data = false := by
    simpa using h4
  unfold getargspec
  rw [h1, h2]
  simp [h3, h4n]

/-- Witness for C5: the callable named `foo` with docstring line `bar(x)`
fails extraction with the not-a-signature error. -/
theorem claim_C5_witness :
    getargspec barDocFunc = .error (.extractionFailed .notASignature) :=
  claim_C5_amended barDocFunc "bar(x)" "bar(x)" rfl rfl rfl (by decide)

/-- C7 counterexample: the claim says that for every function `f` and every
processor map with a key not among `f`'s parameter names, decoration fails
with an error listing the offending keys.  For `def bar(x, *rest)` with the
unknown key `nonexistent`, decoration does fail, but with the variadic
error, which carries no key list: the variadic check runs first. -/
theorem claim_C7_counterexample :
    getargspec varargsFunc = .ok vaSpec ∧
    "nonexistent" ∉ paramNames vaSpec ∧
    preprocess [("nonexistent", procNoop)] varargsFunc = .error .varargsNotAllowed ∧
    (∀ names, (PreprocessErr.varargsNotAllowed ≠ PreprocessErr.unknownArgNames names)) := by
  refine ⟨rfl, by decide, rfl, ?_⟩
  intro names h
  exact PreprocessErr.noConfusion h

/-- C7 amended: for every function whose extracted signature has no
variadics and only simple parameter names, a processor map containing a key
that names no parameter fails decoration — before any wrapper is produced —
with the unknown-arguments configuration error, whose payload lists exactly
the offending (unknown) keys. -/
theorem claim_C7_amended {V : Type} (f : PyFunc V) (spec : ArgSpec V)
    (processors : List (String × Processor V)) (k : String)
    (h1 : getargspec f = .ok spec)
    (h2 : spec.varargs = false) (h3 : spec.varkw = false)
    (h4 : spec.args.all PyParam.isIdent = true)
    (h5 : k ∈ processors.map Prod.fst) (h6 : k ∉ paramNames spec) :
    preprocess processors f =
      .error (.unknownArgNames (badProcessorNames processors spec)) ∧
    (∀ k2, k2 ∈ badProcessorNames processors spec ↔
      (k2 ∈ processors.map Prod.fst ∧ k2 ∉ paramNames spec)) := by
  have hmem : ∀ k2, k2 ∈ badProcessorNames processors spec ↔
      (k2 ∈ processors.map Prod.fst ∧ k2 ∉ paramNames spec) := by
    intro k2
    unfold badProcessorNames
    rw [List.mem_dedup, List.mem_filter]
    simp
  refine ⟨?_, hmem⟩
  have hbad : (badProcessorNames processors spec).isEmpty = false := by
    have hk : k ∈ badProcessorNames processors spec := (hmem k).mpr ⟨h5, h6⟩
    cases hcase : badProcessorNames processors spec with
    | nil => rw [hcase] at hk; cases hk
    | cons a l => rfl
  unfold preprocess
  rw [h1]
  simp [h2, h3, h4, hbad]

/-- Witness for C7 (amended) at `foo(a, b=2)` with the unknown key
`nonexistent`. -/
theorem claim_C7_witness :
    preprocess [("nonexistent", procNoop)] (fooAB sumImpl) =
      .error (.unknownArgNames (badProcessorNames [("nonexistent", procNoop)] specAB)) ∧
    (∀ k2, k2 ∈ badProcessorNames [("nonexistent", procNoop)] specAB ↔
      (k2 ∈ [("nonexistent", procNoop)].map Prod.fst ∧ k2 ∉ paramNames specAB)) :=
  claim_C7_amended (fooAB sumImpl) specAB [("nonexistent", procNoop)] "nonexistent"
    rfl rfl rfl rfl (by simp) (by decide)

/-- C8: whenever decorating `f` with the map assigning parameter `p` the
adapted identity transform produces a wrapper, decorating `f` with the empty
map also produces a wrapper, and the two agree on identity metadata, on the
declared parameter list, and on the result of every call. -/
theorem claim_C8 {V : Type} (p tn : String) (td : Option String)
    (f : PyFunc V) (g : Wrapper V)
    (h : preprocess [(p, call ⟨tn, td, fun v => v⟩)] f = .ok g) :
    ∃ g0 : Wrapper V, preprocess [] f = .ok g0 ∧
      g.name = g0.name ∧ g.doc = g0.doc ∧ g.firstlineno = g0.firstlineno ∧
      g.argsDefaults = g0.argsDefaults ∧
      ∀ pos kw, g.call pos kw = g0.call pos kw := by
  obtain ⟨spec, h1, h2, h3, h4, h5, hco, hg⟩ := preprocess_ok_elim h
  have h5e : badProcessorNames ([] : List (String × Processor V)) spec = [] := rfl
  refine ⟨_, preprocess_ok_intro [] f spec h1 h2 h3 h4 h5e hco, ?_⟩
  subst hg
  refine ⟨rfl, rfl, rfl, rfl, ?_⟩
  intro pos kw
  unfold mkWrapper
  simp [applyProcessors_call_id, applyProcessors_nil]

/-- Witness for C8: `foo(a, b=2)` with the adapted identity on `a`. -/
theorem claim_C8_witness :
    ∃ g0 : Wrapper Int, preprocess [] (fooAB sumImpl) = .ok g0 ∧
      (mkWrapper (fooAB sumImpl)
        [("a", call ⟨"identity", none, fun v => v⟩)]
        (specArgsDefaults specAB)).name = g0.name ∧
      (mkWrapper (fooAB sumImpl)
        [("a", call ⟨"identity", none, fun v => v⟩)]
        (specArgsDefaults specAB)).doc = g0.doc ∧
      (mkWrapper (fooAB sumImpl)
        [("a", call ⟨"identity", none, fun v => v⟩)]
        (specArgsDefaults specAB)).firstlineno = g0.firstlineno ∧
      (mkWrapper (fooAB sumImpl)
        [("a", call ⟨"identity", none, fun v => v⟩)]
        (specArgsDefaults specAB)).argsDefaults = g0.argsDefaults ∧
      ∀ pos kw,
        (mkWrapper (fooAB sumImpl)
          [("a", call ⟨"identity", none, fun v => v⟩)]
          (specArgsDefaults specAB)).call pos kw = g0.call pos kw :=
  claim_C8 "a" "identity" none (fooAB sumImpl)
    (mkWrapper (fooAB sumImpl)
      [("a", call ⟨"identity", none, fun v => v⟩)]
      (specArgsDefaults specAB)) rfl

end Preprocess
